import Mathlib

/-!
Verification development for the citation-graph explorer (`src/app.py`).

The embedding models:
* `clean_title` (app.py lines 62-64),
* `build_graph` (app.py lines 66-91) — the two-hop star-graph construction,
* the pending-query staging pattern around the session state
  (app.py lines 10-21, 131-133, 230-241),
* the error-handling logic flow (app.py lines 151-249).

Python `None`/`""` truthiness on string fields is modelled by `Option String`
together with the `truthy` predicate.  Python list-append loops are modelled
as left folds that append at the tail, which is exactly the loop semantics.
-/

/-- Python truthiness of an optional string field: `None` and `""` are falsy,
every other string is truthy. -/
def truthy : Option String → Bool
  | none => false
  | some s => s != ""

/-- A bibliographic record as returned for references / citations / search
results: the app only ever reads its `paperId` and `title` fields
(requested as `references.title`, `references.paperId`, etc.). -/
structure SPaper where
  paperId : Option String
  title : Option String
deriving DecidableEq, Repr

/-- The seed paper's detail record fetched by `build_graph` via
`_client.get_paper(paper_id, fields=[...])`: its own id and title plus the
lists of reference and citation records. -/
structure PaperDetails where
  paperId : Option String
  title : Option String
  references : List SPaper
  citations : List SPaper
deriving DecidableEq, Repr

/-- A `streamlit_agraph` `Node` as constructed in `build_graph`: positional
spelling of `Node(id=..., label=..., size=..., color=..., title=...)`;
`title` is `none` when the keyword is not passed. -/
structure Node where
  id : Option String
  label : String
  size : Nat
  color : String
  title : Option String
deriving DecidableEq, Repr

/-- A `streamlit_agraph` `Edge` as constructed in `build_graph`:
`Edge(source=..., target=..., label=..., color=...)`. -/
structure Edge where
  source : Option String
  target : Option String
  label : String
  color : String
deriving DecidableEq, Repr

/-- `clean_title(title, length)` from app.py lines 62-64:
`if not title: return "Unknown Title"` then
`return title[:length] + "..." if len(title) > length else title`. -/
def clean_title (title : Option String) (length : Nat) : String :=
  match title with
  | none => "Unknown Title"
  | some t =>
    if t = "" then "Unknown Title"
    else if t.length > length then t.take length ++ "..." else t

/-- The central node appended first in `build_graph` (app.py line 76):
`Node(id=details.paperId, label=clean_title(details.title), size=25,
color="#FF4B4B", title=details.title)`. -/
def seedNode (details : PaperDetails) : Node :=
  { id := details.paperId, label := clean_title details.title 30, size := 25,
    color := "#FF4B4B", title := details.title }

/-- The node built from a kept reference record (app.py line 82). -/
def refNode (ref : SPaper) : Node :=
  { id := ref.paperId, label := clean_title ref.title 30, size := 15,
    color := "#1E88E5", title := none }

/-- The edge built from a kept reference record (app.py line 83):
`Edge(source=ref.paperId, target=details.paperId, label="influenced", ...)`. -/
def refEdge (details : PaperDetails) (ref : SPaper) : Edge :=
  { source := ref.paperId, target := details.paperId, label := "influenced",
    color := "#BDC3C7" }

/-- The node built from a kept citation record (app.py line 89). -/
def citeNode (cite : SPaper) : Node :=
  { id := cite.paperId, label := clean_title cite.title 30, size := 15,
    color := "#43A047", title := none }

/-- The edge built from a kept citation record (app.py line 90):
`Edge(source=details.paperId, target=cite.paperId, label="sparked", ...)`. -/
def citeEdge (details : PaperDetails) (cite : SPaper) : Edge :=
  { source := details.paperId, target := cite.paperId, label := "sparked",
    color := "#BDC3C7" }

/-- One iteration of the reference loop (app.py lines 80-83): the guard
`if ref.paperId and ref.title:` and, when it holds, the two appends. -/
def refStep (details : PaperDetails) (acc : List Node × List Edge)
    (ref : SPaper) : List Node × List Edge :=
  if truthy ref.paperId && truthy ref.title then
    (acc.1 ++ [refNode ref], acc.2 ++ [refEdge details ref])
  else acc

/-- One iteration of the citation loop (app.py lines 87-90). -/
def citeStep (details : PaperDetails) (acc : List Node × List Edge)
    (cite : SPaper) : List Node × List Edge :=
  if truthy cite.paperId && truthy cite.title then
    (acc.1 ++ [citeNode cite], acc.2 ++ [citeEdge details cite])
  else acc

/-- The body of `build_graph` after the fetch (app.py lines 72-91), with the
fetched detail record as input: start from `([seed node], [])`, run the
reference loop over `details.references[:limit_refs]` guarded by
`if details.references:`, then the citation loop over
`details.citations[:limit_cites]` guarded by `if details.citations:`,
and return `(nodes, edges)`. -/
def build_graph_details (details : PaperDetails)
    (limit_refs limit_cites : Nat) : List Node × List Edge :=
  let acc0 : List Node × List Edge := ([seedNode details], [])
  let acc1 :=
    if details.references.isEmpty then acc0
    else (details.references.take limit_refs).foldl (refStep details) acc0
  let acc2 :=
    if details.citations.isEmpty then acc1
    else (details.citations.take limit_cites).foldl (citeStep details) acc1
  acc2

/-- `build_graph(paper_id, _client, limit_refs, limit_cites)` from app.py
lines 66-91.  The bibliographic client is modelled as a pure map from a
paper id to the detail record its `get_paper` call returns for that id. -/
def build_graph (paper_id : String) (client : String → PaperDetails)
    (limit_refs limit_cites : Nat) : List Node × List Edge :=
  build_graph_details (client paper_id) limit_refs limit_cites

/-- The records of a list that survive the `if r.paperId and r.title:` guard
after truncation to the first `limit` elements. -/
def kept (records : List SPaper) (limit : Nat) : List SPaper :=
  (records.take limit).filter (fun r => truthy r.paperId && truthy r.title)

/-- A detail record in which the same paper appears both as a reference and
as a citation of the seed — the upstream data source can return this. -/
def duplicateDemoDetails : PaperDetails :=
  { paperId := some "S", title := some "Seed paper",
    references := [{ paperId := some "A", title := some "Alpha" }],
    citations := [{ paperId := some "A", title := some "Alpha" }] }

/-- A detail record in which a reference record carries the seed's own
paper id, which produces a self-loop edge. -/
def selfLoopDetails : PaperDetails :=
  { paperId := some "S", title := some "Seed paper",
    references := [{ paperId := some "S", title := some "Cycle" }],
    citations := [] }

/-! ### Session state and the pending-query staging pattern -/

/-- The two session-state slots of the query-staging pattern
(app.py lines 10-15): the active query bound to the text input and the
staged pending query. -/
structure SessionState where
  search_query : String
  pending_search_query : String
deriving DecidableEq, Repr

/-- app.py lines 131-133, executed at the start of the main interface and
before the text input bound to `search_query` is instantiated:
`if st.session_state.pending_search_query:` copy it into `search_query`
and clear it. -/
def apply_pending (s : SessionState) : SessionState :=
  if s.pending_search_query != "" then
    { search_query := s.pending_search_query, pending_search_query := "" }
  else s

/-- app.py lines 230-241: the use-seed button handler stages the selected
paper's title, `paper.title or ""`, in the pending slot only. -/
def click_use_seed (s : SessionState) (title : Option String) : SessionState :=
  { s with pending_search_query := title.getD "" }

/-- One render pass of the script restricted to the two query slots: the
staged query is applied first (lines 131-133), then the bound text input is
instantiated, and afterwards, when the use-seed button is clicked in this
pass with a selected paper of the given title, the handler runs (line 237). -/
def render_pass (s : SessionState) (click : Option (Option String)) : SessionState :=
  let s1 := apply_pending s
  match click with
  | some t => click_use_seed s1 t
  | none => s1

/-- The value held by the bound text input during a render pass that starts
from session state `s`: the active query slot after the staged query has
been applied. -/
def text_input_value (s : SessionState) : String :=
  (apply_pending s).search_query

/-! ### The logic flow of one render pass (app.py lines 151-249) -/

/-- What one render pass displays: the error and warning messages, the
search result list, whether the confirmation step was offered, the rendered
graph if any, and whether the selected paper's details were shown. -/
structure RenderOutput where
  errors : List String
  warnings : List String
  results : List SPaper
  confirm_shown : Bool
  graph : Option (List Node × List Edge)
  detail_shown : Bool
deriving DecidableEq, Repr

/-- The logic flow of app.py lines 151-249.  Each network call is modelled
by an `Except`-valued outcome: `search_result` for `sch.search_paper`
(lines 154-159), `graph_result` for the `try` block around `build_graph`
and the graph rendering (lines 180-246), and `detail_result` for the
selected paper's `sch.get_paper` (lines 211-226).  `selected` is the id
extracted from the graph-click value: `none` when nothing was clicked and
`some none` when the clicked value yields no id (lines 202-208). -/
def logic_flow (query : String)
    (search_result : Except String (List SPaper))
    (confirm : Bool)
    (graph_result : Except String (List Node × List Edge))
    (selected : Option (Option String))
    (detail_result : Except String SPaper) : RenderOutput :=
  if query = "" then
    { errors := [], warnings := [], results := [], confirm_shown := false,
      graph := none, detail_shown := false }
  else
    let searched : List SPaper × List String :=
      match search_result with
      | .ok rs => (rs, [])
      | .error e => ([], ["Search failed: " ++ e])
    match searched.1 with
    | [] =>
      { errors := searched.2, warnings := ["No papers found."], results := [],
        confirm_shown := false, graph := none, detail_shown := false }
    | _ :: _ =>
      if confirm then
        match graph_result with
        | .error e =>
          { errors := searched.2 ++ ["Graph error: " ++ e], warnings := [],
            results := searched.1, confirm_shown := true, graph := none,
            detail_shown := false }
        | .ok g =>
          match selected with
          | none =>
            { errors := searched.2, warnings := [], results := searched.1,
              confirm_shown := true, graph := some g, detail_shown := false }
          | some none =>
            { errors := searched.2,
              warnings := ["Could not determine the selected paper from the graph click."],
              results := searched.1, confirm_shown := true, graph := some g,
              detail_shown := false }
          | some (some _) =>
            match detail_result with
            | .error e =>
              { errors := searched.2 ++ ["Failed to fetch paper details: " ++ e],
                warnings := [], results := searched.1, confirm_shown := true,
                graph := some g, detail_shown := false }
            | .ok _ =>
              { errors := searched.2, warnings := [], results := searched.1,
                confirm_shown := true, graph := some g, detail_shown := true }
      else
        { errors := searched.2, warnings := [], results := searched.1,
          confirm_shown := true, graph := none, detail_shown := false }

/-! ### Characterisation of the two loops -/

theorem foldl_refStep (details : PaperDetails) (l : List SPaper)
    (ns : List Node) (es : List Edge) :
    l.foldl (refStep details) (ns, es) =
      (ns ++ (l.filter (fun r => truthy r.paperId && truthy r.title)).map refNode,
       es ++ (l.filter (fun r => truthy r.paperId && truthy r.title)).map (refEdge details)) := by
  induction l generalizing ns es with
  | nil => simp
  | cons r rs ih =>
    by_cases h : (truthy r.paperId && truthy r.title) = true
    · simp [refStep, h, List.filter_cons, ih]
    · simp [refStep, h, List.filter_cons, ih]

theorem foldl_citeStep (details : PaperDetails) (l : List SPaper)
    (ns : List Node) (es : List Edge) :
    l.foldl (citeStep details) (ns, es) =
      (ns ++ (l.filter (fun r => truthy r.paperId && truthy r.title)).map citeNode,
       es ++ (l.filter (fun r => truthy r.paperId && truthy r.title)).map (citeEdge details)) := by
  induction l generalizing ns es with
  | nil => simp
  | cons r rs ih =>
    by_cases h : (truthy r.paperId && truthy r.title) = true
    · simp [citeStep, h, List.filter_cons, ih]
    · simp [citeStep, h, List.filter_cons, ih]

/-- Closed form of `build_graph_details`: the node list is the seed node
followed by one node per kept reference then one per kept citation, and the
edge list is one edge per kept reference then one per kept citation. -/
theorem build_graph_details_eq (details : PaperDetails) (lr lc : Nat) :
    build_graph_details details lr lc =
      (seedNode details :: ((kept details.references lr).map refNode
          ++ (kept details.citations lc).map citeNode),
       (kept details.references lr).map (refEdge details)
          ++ (kept details.citations lc).map (citeEdge details)) := by
  unfold build_graph_details kept
  by_cases hr : details.references.isEmpty
  · by_cases hc : details.citations.isEmpty
    · simp [hr, hc, List.isEmpty_iff.mp hr, List.isEmpty_iff.mp hc]
    · simp [hr, hc, List.isEmpty_iff.mp hr, foldl_citeStep]
  · by_cases hc : details.citations.isEmpty
    · simp [hr, hc, List.isEmpty_iff.mp hc, foldl_refStep]
    · simp [hr, hc, foldl_refStep, foldl_citeStep]

/-! ## Claim theorems -/

/-- C1 (counterexample to the claim as stated): the claim asserts set
semantics — no node id appears twice — but when the same paper occurs both
as a reference and as a citation of the seed, `build_graph` appends a node
for it twice, so the node id list is not duplicate-free. -/
theorem build_graph_node_ids_not_nodup :
    ¬ ((build_graph "S" (fun _ => duplicateDemoDetails) 5 5).1.map Node.id).Nodup := by
  decide

/-- C1 (amended): `build_graph` produces the node list consisting of the
seed node followed by one node per kept reference and then one per kept
citation, and the edge list containing exactly one reference→seed edge per
kept reference followed by exactly one seed→citation edge per kept
citation; the set of node ids is `{seed} ∪ {kept reference ids} ∪ {kept
citation ids}`, although as a list a node id can occur more than once. -/
theorem build_graph_nodes_edges (client : String → PaperDetails)
    (pid : String) (lr lc : Nat) :
    (build_graph pid client lr lc).1 =
        seedNode (client pid)
          :: ((kept (client pid).references lr).map refNode
              ++ (kept (client pid).citations lc).map citeNode)
    ∧ (build_graph pid client lr lc).2 =
        (kept (client pid).references lr).map (refEdge (client pid))
          ++ (kept (client pid).citations lc).map (citeEdge (client pid))
    ∧ ∀ x : Option String,
        x ∈ (build_graph pid client lr lc).1.map Node.id ↔
          (x = (client pid).paperId
            ∨ x ∈ (kept (client pid).references lr).map SPaper.paperId
            ∨ x ∈ (kept (client pid).citations lc).map SPaper.paperId) := by
  refine ⟨?_, ?_, ?_⟩
  · rw [build_graph, build_graph_details_eq]
  · rw [build_graph, build_graph_details_eq]
  · intro x
    rw [build_graph, build_graph_details_eq]
    simp only [List.map_cons, List.map_append, List.map_map, List.mem_cons,
      List.mem_append, List.mem_map, Function.comp, seedNode, refNode, citeNode]

/-- C2: truncation keeps exactly the first `limit_refs` reference records
and the first `limit_cites` citation records, in the order the upstream
source returned them, and the slice is applied before the non-null filter:
the kept records are `filter valid (take limit l)`, a sublist of the first
`limit` records, so a valid record past the limit never contributes. -/
theorem build_graph_truncates_then_filters (client : String → PaperDetails)
    (pid : String) (lr lc : Nat) :
    (build_graph pid client lr lc).1 =
        seedNode (client pid)
          :: (((((client pid).references.take lr).filter
                  (fun r => truthy r.paperId && truthy r.title)).map refNode)
              ++ ((((client pid).citations.take lc).filter
                  (fun r => truthy r.paperId && truthy r.title)).map citeNode))
    ∧ List.Sublist (kept (client pid).references lr) ((client pid).references.take lr)
    ∧ List.Sublist (kept (client pid).citations lc) ((client pid).citations.take lc) := by
  refine ⟨?_, ?_, ?_⟩
  · rw [build_graph, build_graph_details_eq]; rfl
  · exact List.filter_sublist _
  · exact List.filter_sublist _

/-- C3: a reference or citation record with a null/empty id or title
contributes no node and no edge — the node count is exactly one per kept
record plus the seed and the edge count exactly one per kept record — while
the seed always contributes the head node, labelled by `clean_title`, which
yields the placeholder "Unknown Title" on a null or empty title. -/
theorem invalid_records_dropped (client : String → PaperDetails)
    (pid : String) (lr lc : Nat) :
    (build_graph pid client lr lc).1.length
        = 1 + (kept (client pid).references lr).length
            + (kept (client pid).citations lc).length
    ∧ (build_graph pid client lr lc).2.length
        = (kept (client pid).references lr).length
            + (kept (client pid).citations lc).length
    ∧ (build_graph pid client lr lc).1.head? = some (seedNode (client pid))
    ∧ (seedNode (client pid)).label = clean_title (client pid).title 30
    ∧ clean_title none 30 = "Unknown Title"
    ∧ clean_title (some "") 30 = "Unknown Title" := by
  refine ⟨?_, ?_, ?_, rfl, rfl, rfl⟩
  · rw [build_graph, build_graph_details_eq]
    simp only [List.length_cons, List.length_append, List.length_map]
    omega
  · rw [build_graph, build_graph_details_eq]
    simp [List.length_append]
  · rw [build_graph, build_graph_details_eq]
    rfl

/-- C4: `build_graph` is a pure function of the seed paper id, the client's
data for that id, and the two limits: two invocations that agree on those
inputs yield identical node and edge lists, so memoization is
observationally safe. -/
theorem build_graph_deterministic (pid : String)
    (c1 c2 : String → PaperDetails) (lr lc : Nat)
    (h : c1 pid = c2 pid) :
    build_graph pid c1 lr lc = build_graph pid c2 lr lc := by
  rw [build_graph, build_graph, h]

/-- Witness: two clients that agree on the queried id give the same graph. -/
theorem build_graph_deterministic_witness :
    build_graph "S" (fun _ => duplicateDemoDetails) 3 4
      = build_graph "S"
          (fun s => if s = "S" then duplicateDemoDetails else selfLoopDetails) 3 4 :=
  build_graph_deterministic "S" _ _ 3 4 (by decide)

/-- C7: the node list has length at most `1 + limit_refs + limit_cites` and
the edge list at most `limit_refs + limit_cites`, however many reference or
citation records the upstream source returns. -/
theorem build_graph_bounded (client : String → PaperDetails)
    (pid : String) (lr lc : Nat) :
    (build_graph pid client lr lc).1.length ≤ 1 + lr + lc
    ∧ (build_graph pid client lr lc).2.length ≤ lr + lc := by
  have hr : (kept (client pid).references lr).length ≤ lr :=
    le_trans (List.length_filter_le _ _) (List.length_take_le _ _)
  have hc : (kept (client pid).citations lc).length ≤ lc :=
    le_trans (List.length_filter_le _ _) (List.length_take_le _ _)
  constructor
  · rw [build_graph, build_graph_details_eq]
    simp only [List.length_cons, List.length_append, List.length_map]
    omega
  · rw [build_graph, build_graph_details_eq]
    simp only [List.length_append, List.length_map]
    omega

/-- C5: during a render pass, selecting a graph node writes the selected
paper's title only to the pending slot — the active query slot keeps the
value the bound text input showed in that pass — and a non-empty pending
slot is copied into the active query slot and cleared at the start of the
subsequent render pass, before the bound text input is instantiated. -/
theorem pending_query_staging :
    (∀ (s : SessionState) (t : Option String),
        (render_pass s (some t)).search_query = text_input_value s
        ∧ (render_pass s (some t)).pending_search_query = t.getD "")
    ∧ (∀ s : SessionState, s.pending_search_query ≠ "" →
        text_input_value s = s.pending_search_query
        ∧ (apply_pending s).pending_search_query = "") := by
  constructor
  · intro s t
    exact ⟨rfl, rfl⟩
  · intro s h
    constructor
    · simp [text_input_value, apply_pending, h]
    · simp [apply_pending, h]

/-- Witness: a staged query "x" is applied to the active slot and cleared
on the next pass. -/
theorem pending_query_staging_witness :
    ("x" : String) ≠ ""
    ∧ (text_input_value ⟨"old", "x"⟩ = "x"
       ∧ (apply_pending ⟨"old", "x"⟩).pending_search_query = "") :=
  ⟨by decide, pending_query_staging.2 ⟨"old", "x"⟩ (by decide)⟩

/-- C6: every exception from a network call — the paper search, the graph
construction, the selected-paper detail fetch — is caught and shown as an
error message, the flow still yields a well-defined render output, and a
caught search failure leaves the result list empty so neither the
confirmation step nor a graph is produced. -/
theorem network_errors_caught :
    (∀ (q e : String) (confirm : Bool)
        (gr : Except String (List Node × List Edge))
        (sel : Option (Option String)) (dr : Except String SPaper),
        q ≠ "" →
        logic_flow q (.error e) confirm gr sel dr =
          { errors := ["Search failed: " ++ e], warnings := ["No papers found."],
            results := [], confirm_shown := false, graph := none,
            detail_shown := false })
    ∧ (∀ (q e : String) (rs : List SPaper)
        (sel : Option (Option String)) (dr : Except String SPaper),
        q ≠ "" → rs ≠ [] →
        (logic_flow q (.ok rs) true (.error e) sel dr).graph = none
        ∧ ("Graph error: " ++ e) ∈ (logic_flow q (.ok rs) true (.error e) sel dr).errors)
    ∧ (∀ (q e pid : String) (rs : List SPaper) (g : List Node × List Edge),
        q ≠ "" → rs ≠ [] →
        ("Failed to fetch paper details: " ++ e)
            ∈ (logic_flow q (.ok rs) true (.ok g) (some (some pid)) (.error e)).errors
        ∧ (logic_flow q (.ok rs) true (.ok g) (some (some pid)) (.error e)).detail_shown
            = false
        ∧ (logic_flow q (.ok rs) true (.ok g) (some (some pid)) (.error e)).graph
            = some g) := by
  refine ⟨?_, ?_, ?_⟩
  · intro q e confirm gr sel dr hq
    simp [logic_flow, hq]
  · intro q e rs sel dr hq hrs
    match rs with
    | [] => exact absurd rfl hrs
    | r :: rest => constructor <;> simp [logic_flow, hq]
  · intro q e pid rs g hq hrs
    match rs with
    | [] => exact absurd rfl hrs
    | r :: rest => refine ⟨?_, ?_, ?_⟩ <;> simp [logic_flow, hq]

/-- Witness: concrete failures of the three network calls are displayed. -/
theorem network_errors_caught_witness :
    ("q" : String) ≠ ""
    ∧ ([⟨some "S", some "Seed paper"⟩] : List SPaper) ≠ []
    ∧ logic_flow "q" (.error "timeout") true (.ok ([], [])) none (.ok ⟨some "S", some "T"⟩)
        = { errors := ["Search failed: timeout"], warnings := ["No papers found."],
            results := [], confirm_shown := false, graph := none,
            detail_shown := false }
    ∧ ((logic_flow "q" (.ok [⟨some "S", some "Seed paper"⟩]) true
          (.error "down") none (.ok ⟨some "S", some "T"⟩)).graph = none
       ∧ ("Graph error: " ++ "down")
          ∈ (logic_flow "q" (.ok [⟨some "S", some "Seed paper"⟩]) true
              (.error "down") none (.ok ⟨some "S", some "T"⟩)).errors) :=
  ⟨by decide, by decide,
   network_errors_caught.1 "q" "timeout" true (.ok ([], [])) none
     (.ok ⟨some "S", some "T"⟩) (by decide),
   network_errors_caught.2.1 "q" "down" [⟨some "S", some "Seed paper"⟩] none
     (.ok ⟨some "S", some "T"⟩) (by decide) (by decide)⟩

/-- C8: every kept reference record yields a node coloured "#1E88E5" and an
edge from the reference to the seed, and every kept citation record yields
a node coloured "#43A047" and an edge from the seed to the citation. -/
theorem colors_and_directions (client : String → PaperDetails)
    (pid : String) (lr lc : Nat) :
    (∀ r ∈ kept (client pid).references lr,
        refNode r ∈ (build_graph pid client lr lc).1
        ∧ (refNode r).color = "#1E88E5"
        ∧ refEdge (client pid) r ∈ (build_graph pid client lr lc).2
        ∧ (refEdge (client pid) r).source = r.paperId
        ∧ (refEdge (client pid) r).target = (client pid).paperId)
    ∧ (∀ c ∈ kept (client pid).citations lc,
        citeNode c ∈ (build_graph pid client lr lc).1
        ∧ (citeNode c).color = "#43A047"
        ∧ citeEdge (client pid) c ∈ (build_graph pid client lr lc).2
        ∧ (citeEdge (client pid) c).source = (client pid).paperId
        ∧ (citeEdge (client pid) c).target = c.paperId) := by
  constructor
  · intro r hr
    refine ⟨?_, rfl, ?_, rfl, rfl⟩
    · rw [build_graph, build_graph_details_eq]
      exact List.mem_cons_of_mem _ (List.mem_append_left _ (List.mem_map_of_mem _ hr))
    · rw [build_graph, build_graph_details_eq]
      exact List.mem_append_left _ (List.mem_map_of_mem _ hr)
  · intro c hc
    refine ⟨?_, rfl, ?_, rfl, rfl⟩
    · rw [build_graph, build_graph_details_eq]
      exact List.mem_cons_of_mem _ (List.mem_append_right _ (List.mem_map_of_mem _ hc))
    · rw [build_graph, build_graph_details_eq]
      exact List.mem_append_right _ (List.mem_map_of_mem _ hc)

/-- Witness: the kept reference of the demo record yields a blue node and
an edge pointing to the seed. -/
theorem colors_and_directions_witness :
    (⟨some "A", some "Alpha"⟩ : SPaper) ∈ kept duplicateDemoDetails.references 5
    ∧ (refNode ⟨some "A", some "Alpha"⟩
          ∈ (build_graph "S" (fun _ => duplicateDemoDetails) 5 5).1
       ∧ (refNode ⟨some "A", some "Alpha"⟩).color = "#1E88E5"
       ∧ refEdge duplicateDemoDetails ⟨some "A", some "Alpha"⟩
          ∈ (build_graph "S" (fun _ => duplicateDemoDetails) 5 5).2
       ∧ (refEdge duplicateDemoDetails ⟨some "A", some "Alpha"⟩).source
          = (⟨some "A", some "Alpha"⟩ : SPaper).paperId
       ∧ (refEdge duplicateDemoDetails ⟨some "A", some "Alpha"⟩).target
          = duplicateDemoDetails.paperId) :=
  ⟨by decide,
   (colors_and_directions (fun _ => duplicateDemoDetails) "S" 5 5).1
     ⟨some "A", some "Alpha"⟩ (by decide)⟩

/-- Every label produced by `clean_title` with the default length 30 is at
most 33 characters long. -/
theorem clean_title_length_le (t : Option String) :
    (clean_title t 30).length ≤ 33 := by
  match t with
  | none => decide
  | some s =>
    by_cases h0 : s = ""
    · subst h0; decide
    · by_cases h1 : s.length > 30
      · simp only [clean_title]
        rw [if_neg h0, if_pos h1, String.length_append, String.take_eq]
        show (s.data.take 30).length + ("..." : String).length ≤ 33
        rw [List.length_take]
        have h3 : ("..." : String).length = 3 := rfl
        omega
      · simp only [clean_title]
        rw [if_neg h0, if_neg h1]
        omega

/-- C9: `clean_title` is total and returns "Unknown Title" on a null or
empty title, returns a non-empty title of at most 30 characters unchanged,
truncates a longer title to its first 30 characters plus "...", and hence
every node label produced by `build_graph` is at most 33 characters long. -/
theorem clean_title_spec :
    clean_title none 30 = "Unknown Title"
    ∧ clean_title (some "") 30 = "Unknown Title"
    ∧ (∀ t : String, t ≠ "" → t.length ≤ 30 → clean_title (some t) 30 = t)
    ∧ (∀ t : String, 30 < t.length → clean_title (some t) 30 = t.take 30 ++ "...")
    ∧ (∀ (client : String → PaperDetails) (pid : String) (lr lc : Nat),
        ∀ n ∈ (build_graph pid client lr lc).1, n.label.length ≤ 33) := by
  refine ⟨rfl, rfl, ?_, ?_, ?_⟩
  · intro t h0 h1
    simp only [clean_title]
    rw [if_neg h0, if_neg (by omega)]
  · intro t h1
    have h0 : t ≠ "" := by
      intro h
      subst h
      simp at h1
    simp only [clean_title]
    rw [if_neg h0, if_pos h1]
  · intro client pid lr lc n hn
    rw [build_graph, build_graph_details_eq] at hn
    simp only [List.mem_cons, List.mem_append, List.mem_map] at hn
    rcases hn with rfl | ⟨r, _, rfl⟩ | ⟨c, _, rfl⟩
    · exact clean_title_length_le _
    · exact clean_title_length_le _
    · exact clean_title_length_le _

/-- Witness: a short title is kept, a long one is truncated to 33
characters, and the demo graph's labels obey the bound. -/
theorem clean_title_spec_witness :
    (("Short title" : String) ≠ "" ∧ ("Short title" : String).length ≤ 30
      ∧ clean_title (some "Short title") 30 = "Short title")
    ∧ (30 < ("A very long paper title that overflows the limit" : String).length
      ∧ clean_title (some "A very long paper title that overflows the limit") 30
          = ("A very long paper title that overflows the limit" : String).take 30 ++ "...")
    ∧ (refNode ⟨some "A", some "Alpha"⟩
          ∈ (build_graph "S" (fun _ => duplicateDemoDetails) 5 5).1
      ∧ (refNode ⟨some "A", some "Alpha"⟩).label.length ≤ 33) :=
  ⟨⟨by decide, by decide,
    clean_title_spec.2.2.1 "Short title" (by decide) (by decide)⟩,
   ⟨by decide,
    clean_title_spec.2.2.2.1 "A very long paper title that overflows the limit"
      (by decide)⟩,
   ⟨by decide,
    clean_title_spec.2.2.2.2 (fun _ => duplicateDemoDetails) "S" 5 5
      (refNode ⟨some "A", some "Alpha"⟩) (by decide)⟩⟩

/-- C10 (counterexample to the claim as stated): when a reference record
carries the seed's own paper id, `build_graph` emits a self-loop edge whose
two endpoints both equal the seed's paper id, so it is not the case that
every edge has the seed's paper id as exactly one of its endpoints. -/
theorem star_graph_counterexample :
    ¬ (∀ e ∈ (build_graph "S" (fun _ => selfLoopDetails) 5 5).2,
        (e.source = selfLoopDetails.paperId ∧ e.target ≠ selfLoopDetails.paperId)
        ∨ (e.source ≠ selfLoopDetails.paperId ∧ e.target = selfLoopDetails.paperId)) := by
  decide

/-- C10 (amended): the edge count is one less than the node count, and
every edge has the seed's paper id among its endpoints — as the target of a
reference edge or the source of a citation edge, possibly as both for a
self-loop — while the other declared endpoint is the id of a node appended
in the same iteration, hence present in the node list. -/
theorem star_graph_shape (client : String → PaperDetails)
    (pid : String) (lr lc : Nat) :
    (build_graph pid client lr lc).2.length
        = (build_graph pid client lr lc).1.length - 1
    ∧ ∀ e ∈ (build_graph pid client lr lc).2,
        (e.target = (client pid).paperId
          ∧ ∃ n ∈ (build_graph pid client lr lc).1, n.id = e.source)
        ∨ (e.source = (client pid).paperId
          ∧ ∃ n ∈ (build_graph pid client lr lc).1, n.id = e.target) := by
  constructor
  · rw [build_graph, build_graph_details_eq]
    simp [List.length_append]
  · intro e he
    rw [build_graph, build_graph_details_eq] at he ⊢
    simp only [List.mem_append, List.mem_map] at he
    rcases he with ⟨r, hr, rfl⟩ | ⟨c, hc, rfl⟩
    · refine Or.inl ⟨rfl, refNode r, ?_, rfl⟩
      exact List.mem_cons_of_mem _ (List.mem_append_left _ (List.mem_map_of_mem _ hr))
    · refine Or.inr ⟨rfl, citeNode c, ?_, rfl⟩
      exact List.mem_cons_of_mem _ (List.mem_append_right _ (List.mem_map_of_mem _ hc))

/-- Witness: on the demo record the edge counts match and a concrete edge
has the seed id as target with its source among the node ids. -/
theorem star_graph_shape_witness :
    refEdge duplicateDemoDetails ⟨some "A", some "Alpha"⟩
        ∈ (build_graph "S" (fun _ => duplicateDemoDetails) 5 5).2
    ∧ (((refEdge duplicateDemoDetails ⟨some "A", some "Alpha"⟩).target
          = duplicateDemoDetails.paperId
        ∧ ∃ n ∈ (build_graph "S" (fun _ => duplicateDemoDetails) 5 5).1,
            n.id = (refEdge duplicateDemoDetails ⟨some "A", some "Alpha"⟩).source)
      ∨ ((refEdge duplicateDemoDetails ⟨some "A", some "Alpha"⟩).source
          = duplicateDemoDetails.paperId
        ∧ ∃ n ∈ (build_graph "S" (fun _ => duplicateDemoDetails) 5 5).1,
            n.id = (refEdge duplicateDemoDetails ⟨some "A", some "Alpha"⟩).target)) :=
  ⟨by decide,
   (star_graph_shape (fun _ => duplicateDemoDetails) "S" 5 5).2
     (refEdge duplicateDemoDetails ⟨some "A", some "Alpha"⟩) (by decide)⟩
